import Mathlib

/-!
Shallow embedding of the context-assembly pipeline of `awsagent.py`
(class `AWSCloudAgent`): the relevance selector, the per-domain summary
formatters, the context aggregator `get_aws_context`, and the query
orchestrator `query`.

External collaborators (the boto3 service clients and the litellm
completion client) are modelled as `Except String _` valued fields of an
environment record: `Except.ok` is a successful API response, and
`Except.error e` stands for a raised exception whose `str(e)` is `e`.
Python's `str.lower` is modelled by `strToLower`, `in` (substring
test) by `strContains`, and `"\n\n".join(...)` by `joinSep "\n\n"`.
The float cost amount is modelled in exact cents (`Nat`), with
`formatCents` playing the role of `f"{float(amount):.2f}"`.
-/

namespace AwsAgent

/-- Model of Python `str.lower()`: lower-case every character. -/
def strToLower (s : String) : String :=
  String.mk (s.data.map Char.toLower)

/-- Model of Python's `s[:n]` slice (by code point). -/
def strTake (s : String) (n : Nat) : String :=
  String.mk (s.data.take n)

/-- Python `str.startswith` on char lists: `hasPrefixCh p s` iff `p` is a
prefix of `s`. -/
def hasPrefixCh : List Char → List Char → Bool
  | [], _ => true
  | _ :: _, [] => false
  | p :: ps, c :: cs => p == c && hasPrefixCh ps cs

/-- Substring occurrence on char lists: `hasInfixCh p s` iff `p` occurs
contiguously inside `s`. -/
def hasInfixCh (pat : List Char) : List Char → Bool
  | [] => pat.isEmpty
  | c :: cs => hasPrefixCh pat (c :: cs) || hasInfixCh pat cs

/-- Model of Python's `pat in s` substring test on strings. -/
def strContains (s pat : String) : Bool :=
  hasInfixCh pat.data s.data

/-- Model of Python `any(keyword in q for keyword in kws)`. -/
def matchAny (q : String) (kws : List String) : Bool :=
  kws.any (fun k => strContains q k)

/-- Model of Python `sep.join(parts)`. -/
def joinSep (sep : String) : List String → String
  | [] => ""
  | [p] => p
  | p :: rest => p ++ sep ++ joinSep sep rest

/-- One EC2 instance as consumed by `_get_ec2_summary`: the fields read
from each element of a reservation's `Instances`. -/
structure Ec2Instance where
  instanceId : String
  instanceType : String
  state : String
  az : String
deriving Repr, DecidableEq

/-- One S3 bucket as consumed by `_get_s3_summary`; `creationDate` models
`CreationDate.strftime('%Y-%m-%d')`, the already-formatted date string. -/
structure S3Bucket where
  name : String
  creationDate : String
deriving Repr, DecidableEq

/-- One RDS instance as consumed by `_get_rds_summary`. -/
structure DbInstance where
  identifier : String
  engine : String
  instanceClass : String
  status : String
deriving Repr, DecidableEq

/-- One Lambda function as consumed by `_get_lambda_summary`. -/
structure LambdaFn where
  functionName : String
  runtime : String
  lastModified : String
deriving Repr, DecidableEq

/-- One VPC as consumed by `_get_vpc_summary`. -/
structure Vpc where
  vpcId : String
  cidrBlock : String
  isDefault : Bool
deriving Repr, DecidableEq

/-- The caller identity returned by `sts.get_caller_identity()`. -/
structure Identity where
  account : String
deriving Repr, DecidableEq

/-- The environment of external collaborators: one field per boto3 client
call made by the summary helpers, plus the litellm completion client.
`Except.error e` models a raised exception with message `e`.
`costResults` models `response['ResultsByTime']` with each entry reduced
to its `Total.BlendedCost.Amount` in exact cents. -/
structure Env where
  sts : Except String Identity
  regionName : Option String
  ec2Reservations : Except String (List (List Ec2Instance))
  s3Buckets : Except String (List S3Bucket)
  dbInstances : Except String (List DbInstance)
  lambdaFunctions : Except String (List LambdaFn)
  costResults : Except String (List Nat)
  vpcs : Except String (List Vpc)
  completion : List (String × String) → Except String String

/-- `_get_account_summary`: account id and region on success, `""` on any
failure (the bare `except:` branch). -/
def accountSummary (env : Env) : String :=
  match env.sts with
  | .ok identity =>
      "AWS Account Context:\n- Account ID: " ++ identity.account ++
        "\n- Region: " ++
        (match env.regionName with
         | some r => if r = "" then "us-east-1" else r
         | none => "us-east-1")
  | .error _ => ""

/-- The item line for one EC2 instance inside `_get_ec2_summary`. -/
def ec2Line (i : Ec2Instance) : String :=
  "- " ++ i.instanceId ++ ": " ++ i.instanceType ++ " (" ++ i.state ++
    ") in " ++ i.az ++ "\n"

/-- The non-terminated instances gathered by the double loop of
`_get_ec2_summary` over reservations and their instances. -/
def activeInstances (reservations : List (List Ec2Instance)) :
    List Ec2Instance :=
  reservations.flatten.filter (fun i => i.state ≠ "terminated")

/-- The item lines actually rendered by `_get_ec2_summary`:
`for inst in instances[:5]`. -/
def ec2RenderedLines (reservations : List (List Ec2Instance)) :
    List String :=
  ((activeInstances reservations).take 5).map ec2Line

/-- `_get_ec2_summary`. -/
def ec2Summary (env : Env) : String :=
  match env.ec2Reservations with
  | .error e => "EC2: Unable to retrieve instance information (" ++ e ++ ")"
  | .ok reservations =>
      let instances := activeInstances reservations
      if instances.isEmpty then "EC2: No active instances found"
      else
        "EC2 Instances (" ++ toString instances.length ++ " active):\n" ++
          String.join (ec2RenderedLines reservations)

/-- The item line for one bucket inside `_get_s3_summary`. -/
def s3Line (b : S3Bucket) : String :=
  "- " ++ b.name ++ " (created: " ++ b.creationDate ++ ")\n"

/-- The item lines actually rendered by `_get_s3_summary`:
`for bucket in buckets[:5]`. -/
def s3RenderedLines (buckets : List S3Bucket) : List String :=
  (buckets.take 5).map s3Line

/-- `_get_s3_summary`. -/
def s3Summary (env : Env) : String :=
  match env.s3Buckets with
  | .error e => "S3: Unable to retrieve bucket information (" ++ e ++ ")"
  | .ok buckets =>
      if buckets.isEmpty then "S3: No buckets found"
      else
        "S3 Buckets (" ++ toString buckets.length ++ " total):\n" ++
          String.join (s3RenderedLines buckets)

/-- The item line for one database inside `_get_rds_summary`. -/
def rdsLine (db : DbInstance) : String :=
  "- " ++ db.identifier ++ ": " ++ db.engine ++ " " ++ db.instanceClass ++
    " (" ++ db.status ++ ")\n"

/-- The item lines rendered by `_get_rds_summary`: `for db in instances`
iterates over the whole list with no `[:5]` slice. -/
def rdsRenderedLines (instances : List DbInstance) : List String :=
  instances.map rdsLine

/-- `_get_rds_summary`. -/
def rdsSummary (env : Env) : String :=
  match env.dbInstances with
  | .error e => "RDS: Unable to retrieve database information (" ++ e ++ ")"
  | .ok instances =>
      if instances.isEmpty then "RDS: No database instances found"
      else
        "RDS Instances (" ++ toString instances.length ++ " total):\n" ++
          String.join (rdsRenderedLines instances)

/-- The item line for one function inside `_get_lambda_summary`;
`lastModified.take 10` models the `[:10]` slice. -/
def lambdaLine (f : LambdaFn) : String :=
  "- " ++ f.functionName ++ ": " ++ f.runtime ++ " (modified: " ++
    (strTake f.lastModified 10) ++ ")\n"

/-- The item lines actually rendered by `_get_lambda_summary`:
`for func in functions[:5]`. -/
def lambdaRenderedLines (functions : List LambdaFn) : List String :=
  (functions.take 5).map lambdaLine

/-- `_get_lambda_summary`. -/
def lambdaSummary (env : Env) : String :=
  match env.lambdaFunctions with
  | .error e =>
      "Lambda: Unable to retrieve function information (" ++ e ++ ")"
  | .ok functions =>
      if functions.isEmpty then "Lambda: No functions found"
      else
        "Lambda Functions (" ++ toString functions.length ++ " total):\n" ++
          String.join (lambdaRenderedLines functions)

/-- Renders a nonnegative amount of cents the way `f"{x:.2f}"` renders the
corresponding dollar value. -/
def formatCents (cents : Nat) : String :=
  toString (cents / 100) ++ "." ++
    (if cents % 100 < 10 then "0" ++ toString (cents % 100)
     else toString (cents % 100))

/-- `_get_cost_summary`; the Cost Explorer time-period setup has no effect
on the rendered text and is not modelled. -/
def costSummary (env : Env) : String :=
  match env.costResults with
  | .error e => "Cost: Unable to retrieve cost information (" ++ e ++ ")"
  | .ok results =>
      match results with
      | [] => "Cost: Unable to retrieve current cost information"
      | amount :: _ =>
          "Cost Summary:\n- Current month estimated: $" ++
            formatCents amount ++ " USD"

/-- The item line for one VPC inside `_get_vpc_summary`; note the space
before the conditional `(default)` tag, as in the f-string. -/
def vpcLine (v : Vpc) : String :=
  "- " ++ v.vpcId ++ ": " ++ v.cidrBlock ++ " " ++
    (if v.isDefault then "(default)" else "") ++ "\n"

/-- The item lines rendered by `_get_vpc_summary`: `for vpc in vpcs`
iterates over the whole list with no `[:5]` slice. -/
def vpcRenderedLines (vpcs : List Vpc) : List String :=
  vpcs.map vpcLine

/-- `_get_vpc_summary`. -/
def vpcSummary (env : Env) : String :=
  match env.vpcs with
  | .error e => "VPC: Unable to retrieve VPC information (" ++ e ++ ")"
  | .ok vpcs =>
      if vpcs.isEmpty then "VPC: No VPCs found"
      else
        "VPC Summary (" ++ toString vpcs.length ++ " VPCs):\n" ++
          String.join (vpcRenderedLines vpcs)

/-- The trigger keyword lists of the six `if any(...)` branches of
`get_aws_context`, in source order. -/
def computeKeywords : List String := ["ec2", "instance", "server", "compute"]

def storageKeywords : List String := ["s3", "storage", "bucket"]

def databaseKeywords : List String := ["rds", "database", "db"]

def serverlessKeywords : List String := ["lambda", "serverless", "function"]

def costKeywords : List String := ["cost", "billing", "price", "expensive"]

def networkKeywords : List String := ["vpc", "network", "security"]

/-- `get_aws_context`: the account summary, then one summary per matching
keyword branch in source order, joined with blank lines after dropping
empty strings (`filter(None, ...)`). The helpers absorb every client
failure, so the surrounding `try/except` never fires and is not a
reachable branch of the model. -/
def getAwsContext (env : Env) (query : String) : String :=
  let q := strToLower query
  let parts : List String :=
    [accountSummary env]
      ++ (if matchAny q computeKeywords then [ec2Summary env] else [])
      ++ (if matchAny q storageKeywords then [s3Summary env] else [])
      ++ (if matchAny q databaseKeywords then [rdsSummary env] else [])
      ++ (if matchAny q serverlessKeywords then [lambdaSummary env] else [])
      ++ (if matchAny q costKeywords then [costSummary env] else [])
      ++ (if matchAny q networkKeywords then [vpcSummary env] else [])
  joinSep "\n\n" (parts.filter (fun s => s ≠ ""))

/-- The six data domains of the keyword branches of `get_aws_context`, in
source declaration order. -/
inductive Topic
  | compute
  | storage
  | database
  | serverless
  | cost
  | network
deriving Repr, DecidableEq

/-- The trigger keywords of each topic's `if any(...)` branch. -/
def keywordsFor : Topic → List String
  | .compute => computeKeywords
  | .storage => storageKeywords
  | .database => databaseKeywords
  | .serverless => serverlessKeywords
  | .cost => costKeywords
  | .network => networkKeywords

/-- All topics in the declaration order of the branches of
`get_aws_context`. -/
def allTopics : List Topic :=
  [.compute, .storage, .database, .serverless, .cost, .network]

/-- The relevance selection: the topics whose keyword test fires on the
lower-cased query, in declaration order. -/
def selectedTopics (query : String) : List Topic :=
  allTopics.filter (fun t => matchAny (strToLower query) (keywordsFor t))

/-- The summary helper invoked for each topic's branch. -/
def summaryFor (env : Env) : Topic → String
  | .compute => ec2Summary env
  | .storage => s3Summary env
  | .database => rdsSummary env
  | .serverless => lambdaSummary env
  | .cost => costSummary env
  | .network => vpcSummary env

/-- The domain name appearing in each summary helper's diagnostic. -/
def domainName : Topic → String
  | .compute => "EC2"
  | .storage => "S3"
  | .database => "RDS"
  | .serverless => "Lambda"
  | .cost => "Cost"
  | .network => "VPC"

/-- The diagnostic string a summary helper returns when its client call
raises with message `e`. -/
def failNote : Topic → String → String
  | .compute, e => "EC2: Unable to retrieve instance information (" ++ e ++ ")"
  | .storage, e => "S3: Unable to retrieve bucket information (" ++ e ++ ")"
  | .database, e => "RDS: Unable to retrieve database information (" ++ e ++ ")"
  | .serverless, e =>
      "Lambda: Unable to retrieve function information (" ++ e ++ ")"
  | .cost, e => "Cost: Unable to retrieve cost information (" ++ e ++ ")"
  | .network, e => "VPC: Unable to retrieve VPC information (" ++ e ++ ")"

/-- The error message, if any, of the client call behind a topic. -/
def clientErr (env : Env) : Topic → Option String
  | .compute => match env.ec2Reservations with
      | .error e => some e
      | .ok _ => none
  | .storage => match env.s3Buckets with
      | .error e => some e
      | .ok _ => none
  | .database => match env.dbInstances with
      | .error e => some e
      | .ok _ => none
  | .serverless => match env.lambdaFunctions with
      | .error e => some e
      | .ok _ => none
  | .cost => match env.costResults with
      | .error e => some e
      | .ok _ => none
  | .network => match env.vpcs with
      | .error e => some e
      | .ok _ => none

/-- The persona instructions of the `system` message
(`self.system_prompt`). -/
def systemPrompt : String :=
  "You are an expert AWS Cloud Solutions Architect with deep knowledge of:\n        - AWS services architecture and best practices\n        - Cost optimization strategies\n        - Security and compliance frameworks\n        - Infrastructure as Code (CloudFormation, CDK, Terraform)\n        - Serverless architectures\n        - Container orchestration (ECS, EKS)\n        - Database solutions and migration strategies\n        - Monitoring, logging, and observability\n        - Disaster recovery and backup strategies\n        \n        You have direct access to the user\x27s AWS account and can provide real-time information about their current infrastructure, costs, and recommendations.\n        \n        Always provide practical, actionable advice with specific AWS service recommendations and configuration examples when appropriate."

/-- The `user` message content built by `query`. -/
def userContent (env : Env) (q : String) : String :=
  "Current AWS Account Context:\n" ++ getAwsContext env q ++
    "\n\nUser Question: " ++ q

/-- The `messages` list passed to `litellm.completion`, as
(role, content) pairs. -/
def queryMessages (env : Env) (q : String) : List (String × String) :=
  [("system", systemPrompt), ("user", userContent env q)]

/-- The fixed tail of the error string returned by `query` on a
completion failure. -/
def queryErrorSuffix : String :=
  "\n\nPlease ensure your LiteLLM is properly configured and you have valid API keys set up."

/-- `query`: assemble the context, call the completion client with the
system and user messages, and absorb any completion failure into a
descriptive error string. -/
def query (env : Env) (userQuestion : String) : String :=
  match env.completion (queryMessages env userQuestion) with
  | .ok content => content
  | .error e => "Error processing query: " ++ e ++ queryErrorSuffix

/-- The number of rendered item lines of a summary text: the lines
(separated by newline characters) that start with the `"- "` item
marker. -/
def splitLinesCh : List Char → List (List Char)
  | [] => [[]]
  | c :: cs =>
      let rest := splitLinesCh cs
      if c = '\n' then [] :: rest
      else
        match rest with
        | [] => [[c]]
        | l :: ls => (c :: l) :: ls

/-- How many item lines (lines starting with `"- "`) a summary text
renders. -/
def itemLineCount (s : String) : Nat :=
  ((splitLinesCh s.data).filter (fun l => hasPrefixCh "- ".data l)).length


theorem hasPrefixCh_iff (p s : List Char) : hasPrefixCh p s = true ↔ p <+: s := by
  induction p generalizing s with
  | nil => simp [hasPrefixCh]
  | cons a ps ih =>
    cases s with
    | nil => simp [hasPrefixCh]
    | cons c cs =>
      simp [hasPrefixCh, Bool.and_eq_true, beq_iff_eq, List.cons_prefix_cons, ih]

theorem hasInfixCh_iff (p s : List Char) : hasInfixCh p s = true ↔ p <:+: s := by
  induction s with
  | nil =>
    simp [hasInfixCh, List.isEmpty_iff, List.infix_nil]
  | cons c cs ih =>
    simp [hasInfixCh, Bool.or_eq_true, hasPrefixCh_iff, ih, List.infix_cons_iff]

theorem strContains_iff (s pat : String) :
    strContains s pat = true ↔ pat.data <:+: s.data :=
  hasInfixCh_iff pat.data s.data

theorem joinSep_single (sep a : String) : joinSep sep [a] = a := rfl

theorem joinSep_cons2 (sep a b : String) (rs : List String) :
    joinSep sep (a :: b :: rs) = a ++ sep ++ joinSep sep (b :: rs) := rfl

theorem infix_joinSep (sep : String) (parts : List String) (p : String)
    (h : p ∈ parts) : p.data <:+: (joinSep sep parts).data := by
  induction parts with
  | nil => cases h
  | cons a rest ih =>
    cases rest with
    | nil =>
      rw [List.mem_singleton] at h
      subst h
      exact List.infix_refl _
    | cons b rs =>
      rcases List.mem_cons.1 h with rfl | hmem
      · rw [joinSep_cons2, String.data_append, String.data_append]
        exact ⟨[], sep.data ++ (joinSep sep (b :: rs)).data, by simp⟩
      · have hinf := ih hmem
        rw [joinSep_cons2, String.data_append, String.data_append]
        obtain ⟨u, v, huv⟩ := hinf
        exact ⟨a.data ++ sep.data ++ u, v, by simp [← huv]⟩

theorem prefix_joinSep (sep a : String) (l : List String) :
    a.data <+: (joinSep sep (a :: l)).data := by
  cases l with
  | nil => exact List.prefix_refl _
  | cons b rs =>
    rw [joinSep_cons2, String.data_append, String.data_append]
    exact ⟨sep.data ++ (joinSep sep (b :: rs)).data, by simp⟩

theorem getAwsContext_eq (env : Env) (q : String) :
    getAwsContext env q =
      joinSep "\n\n"
        ((accountSummary env :: (selectedTopics q).map (summaryFor env)).filter
          (fun s => s ≠ "")) := by
  unfold getAwsContext selectedTopics allTopics
  cases h1 : matchAny (strToLower q) computeKeywords <;>
    cases h2 : matchAny (strToLower q) storageKeywords <;>
      cases h3 : matchAny (strToLower q) databaseKeywords <;>
        cases h4 : matchAny (strToLower q) serverlessKeywords <;>
          cases h5 : matchAny (strToLower q) costKeywords <;>
            cases h6 : matchAny (strToLower q) networkKeywords <;>
              simp [h1, h2, h3, h4, h5, h6, keywordsFor, summaryFor]

theorem summaryFor_err (env : Env) (t : Topic) (e : String)
    (h : clientErr env t = some e) : summaryFor env t = failNote t e := by
  cases t with
  | compute =>
    cases henv : env.ec2Reservations with
    | error e0 =>
      rw [clientErr, henv] at h
      simp at h
      simp [summaryFor, ec2Summary, henv, failNote, h]
    | ok v => rw [clientErr, henv] at h; simp at h
  | storage =>
    cases henv : env.s3Buckets with
    | error e0 =>
      rw [clientErr, henv] at h
      simp at h
      simp [summaryFor, s3Summary, henv, failNote, h]
    | ok v => rw [clientErr, henv] at h; simp at h
  | database =>
    cases henv : env.dbInstances with
    | error e0 =>
      rw [clientErr, henv] at h
      simp at h
      simp [summaryFor, rdsSummary, henv, failNote, h]
    | ok v => rw [clientErr, henv] at h; simp at h
  | serverless =>
    cases henv : env.lambdaFunctions with
    | error e0 =>
      rw [clientErr, henv] at h
      simp at h
      simp [summaryFor, lambdaSummary, henv, failNote, h]
    | ok v => rw [clientErr, henv] at h; simp at h
  | cost =>
    cases henv : env.costResults with
    | error e0 =>
      rw [clientErr, henv] at h
      simp at h
      simp [summaryFor, costSummary, henv, failNote, h]
    | ok v => rw [clientErr, henv] at h; simp at h
  | network =>
    cases henv : env.vpcs with
    | error e0 =>
      rw [clientErr, henv] at h
      simp at h
      simp [summaryFor, vpcSummary, henv, failNote, h]
    | ok v => rw [clientErr, henv] at h; simp at h

theorem summary_infix_context (env : Env) (q : String) (t : Topic)
    (h : t ∈ selectedTopics q) :
    (summaryFor env t).data <:+: (getAwsContext env q).data := by
  rw [getAwsContext_eq]
  by_cases hne : summaryFor env t = ""
  · rw [hne]
    exact ⟨[], _, rfl⟩
  · apply infix_joinSep
    refine List.mem_filter.2 ⟨?_, by simp [hne]⟩
    exact List.mem_cons_of_mem _ (List.mem_map_of_mem _ h)

theorem strContains_context_of_selected (env : Env) (q : String) (t : Topic)
    (h : t ∈ selectedTopics q) :
    strContains (getAwsContext env q) (summaryFor env t) = true :=
  (strContains_iff _ _).2 (summary_infix_context env q t h)

theorem accountSummary_ok (env : Env) (i : Identity) (hok : env.sts = .ok i) :
    accountSummary env ≠ "" := by
  rw [accountSummary, hok]
  intro hcontra
  have hd := congrArg String.data hcontra
  rw [String.data_append] at hd
  simp only [String.data_append, List.append_eq_nil] at hd
  exact absurd hd.1.1.1 (by decide)

theorem account_prefix_context (env : Env) (q : String) (i : Identity)
    (hok : env.sts = .ok i) :
    (accountSummary env).data <+: (getAwsContext env q).data := by
  rw [getAwsContext_eq]
  rw [List.filter_cons_of_pos (by simp [accountSummary_ok env i hok])]
  exact prefix_joinSep _ _ _

theorem isInfix_append_left {x a : List Char} (b : List Char)
    (h : x <:+: a) : x <:+: a ++ b := by
  obtain ⟨u, v, rfl⟩ := h
  exact ⟨u, v ++ b, by simp⟩

theorem isInfix_append_right {x b : List Char} (a : List Char)
    (h : x <:+: b) : x <:+: a ++ b := by
  obtain ⟨u, v, rfl⟩ := h
  exact ⟨a ++ u, v, by simp⟩

/-- A single benign caller identity used by the concrete environments. -/
def identW : Identity := ⟨"123456789012"⟩

/-- A completion client that always succeeds. -/
def okCompletion : List (String × String) → Except String String :=
  fun _ => .ok "All good."

/-- A fully healthy environment: every client call succeeds. -/
def envOkAll : Env :=
  { sts := .ok identW
    regionName := some "us-west-2"
    ec2Reservations := .ok [[⟨"i-aaa", "t2.micro", "running", "us-west-2a"⟩]]
    s3Buckets := .ok [⟨"logs", "2024-01-01"⟩]
    dbInstances := .ok [⟨"db1", "mysql", "db.t3.micro", "available"⟩]
    lambdaFunctions := .ok [⟨"fn1", "python3.9", "2024-01-02T03:04:05"⟩]
    costResults := .ok [12345]
    vpcs := .ok [⟨"vpc-1", "10.0.0.0/16", true⟩]
    completion := okCompletion }

/-- Healthy environment except the S3 client raises. -/
def envS3Err : Env := { envOkAll with s3Buckets := .error "AccessDenied" }

/-- Healthy environment except the identity fetch raises. -/
def envStsErr : Env := { envOkAll with sts := .error "ExpiredToken" }

/-- Healthy environment except the completion client raises. -/
def envCompErr : Env := { envOkAll with completion := fun _ => .error "no api key" }

/-- Environment in which every source client raises. -/
def envAllErr : Env :=
  { sts := .ok identW
    regionName := none
    ec2Reservations := .error "e1"
    s3Buckets := .error "e2"
    dbInstances := .error "e3"
    lambdaFunctions := .error "e4"
    costResults := .error "e5"
    vpcs := .error "e6"
    completion := fun _ => .error "down" }

/-- Environment of the EC2/S3 scenario: two running instances and an S3
client that raises. -/
def envScenario : Env :=
  { envOkAll with
      ec2Reservations := .ok
        [[⟨"i-111", "t2.micro", "running", "us-east-1a"⟩,
          ⟨"i-222", "t3.large", "running", "us-east-1b"⟩]]
      s3Buckets := .error "S3Down" }

set_option maxRecDepth 40000 in
/-- C5: a topic is selected exactly once iff some trigger keyword of it
occurs in the lower-cased query; in particular on
"What EC2 instances do I have?" the EC2 topic fires, the S3 topic does
not, and the context holds the account block and both instance lines but
nothing from S3. -/
theorem C5_topic_selected_iff_keyword :
    (∀ (q : String) (t : Topic),
        (selectedTopics q).count t =
          (if matchAny (strToLower q) (keywordsFor t) then 1 else 0))
    ∧ (selectedTopics "What EC2 instances do I have?").count .compute = 1
    ∧ (selectedTopics "What EC2 instances do I have?").count .storage = 0
    ∧ strContains (getAwsContext envScenario "What EC2 instances do I have?")
        "AWS Account Context:" = true
    ∧ strContains (getAwsContext envScenario "What EC2 instances do I have?")
        "- i-111: t2.micro (running) in us-east-1a" = true
    ∧ strContains (getAwsContext envScenario "What EC2 instances do I have?")
        "- i-222: t3.large (running) in us-east-1b" = true
    ∧ strContains (getAwsContext envScenario "What EC2 instances do I have?")
        "S3" = false := by
  refine ⟨?_, by decide, by decide, by decide, by decide, by decide, by decide⟩
  intro q t
  rw [selectedTopics]
  by_cases h : matchAny (strToLower q) (keywordsFor t) = true
  · rw [if_pos h]
    apply List.count_eq_one_of_mem
    · exact List.Nodup.filter _ (by decide)
    · exact List.mem_filter.2 ⟨by cases t <;> decide, h⟩
  · rw [if_neg h, List.count_eq_zero]
    intro hmem
    have h2 := List.of_mem_filter hmem
    exact h h2

/-- C7: the assembled context is the account block followed by the
summaries of the selected topics in fixed declaration order, joined by
blank lines with empty parts skipped; the selection is a sublist of the
declaration-order topic list. -/
theorem C7_context_order (env : Env) (q : String) :
    getAwsContext env q =
      joinSep "\n\n"
        ((accountSummary env :: (selectedTopics q).map (summaryFor env)).filter
          (fun s => s ≠ ""))
    ∧ List.Sublist (selectedTopics q) allTopics :=
  ⟨getAwsContext_eq env q, List.filter_sublist _⟩

/-- C3: `query` always returns a string: a successful completion is
returned as-is and any completion failure is converted into the
descriptive error string. -/
theorem C3_query_total (env : Env) (q : String) :
    (∀ r, env.completion (queryMessages env q) = .ok r → query env q = r)
    ∧ (∀ e, env.completion (queryMessages env q) = .error e →
        query env q = "Error processing query: " ++ e ++ queryErrorSuffix) := by
  constructor <;> intro x hx <;> rw [query, hx]

theorem C3_witness :
    query envCompErr "" =
      "Error processing query: " ++ "no api key" ++ queryErrorSuffix :=
  (C3_query_total envCompErr "").2 "no api key" rfl

/-- C10: when no topic keyword matches and the identity fetch fails, the
assembled context is the empty string. -/
theorem C10_no_match_no_identity (env : Env) (q : String) (e : String)
    (hsel : selectedTopics q = []) (herr : env.sts = .error e) :
    getAwsContext env q = "" := by
  have hacc : accountSummary env = "" := by rw [accountSummary, herr]
  rw [getAwsContext_eq, hsel, hacc]
  rfl

theorem C10_witness :
    selectedTopics "hello there" = []
    ∧ getAwsContext envStsErr "hello there" = "" :=
  ⟨by decide,
   C10_no_match_no_identity envStsErr "hello there" "ExpiredToken" (by decide) rfl⟩

/-- C4: if the client of a selected topic raises, the context still
contains the diagnostic note of that topic (which carries the domain name
and the underlying error message), and the full summary text of every
selected topic still appears in the context. -/
theorem C4_failure_isolated (env : Env) (q : String) (t : Topic) (e : String)
    (hsel : t ∈ selectedTopics q) (herr : clientErr env t = some e) :
    strContains (getAwsContext env q) (failNote t e) = true
    ∧ strContains (failNote t e) (domainName t) = true
    ∧ strContains (failNote t e) e = true
    ∧ ((selectedTopics q).all
        (fun u => strContains (getAwsContext env q) (summaryFor env u))) = true := by
  refine ⟨?_, ?_, ?_, ?_⟩
  · rw [← summaryFor_err env t e herr]
    exact strContains_context_of_selected env q t hsel
  · apply (strContains_iff _ _).2
    cases t <;>
      simp only [failNote, domainName, String.data_append] <;>
        exact isInfix_append_left _
          (isInfix_append_left _ ((hasInfixCh_iff _ _).1 (by decide)))
  · apply (strContains_iff _ _).2
    cases t <;>
      simp only [failNote, String.data_append] <;>
        exact isInfix_append_left _ (isInfix_append_right _ (List.infix_refl _))
  · rw [List.all_eq_true]
    intro u hu
    exact strContains_context_of_selected env q u hu

theorem C4_witness :
    (Topic.storage ∈ selectedTopics "show my s3 and ec2 setup")
    ∧ clientErr envS3Err .storage = some "AccessDenied"
    ∧ strContains (getAwsContext envS3Err "show my s3 and ec2 setup")
        (failNote .storage "AccessDenied") = true := by
  refine ⟨by decide, rfl, ?_⟩
  exact (C4_failure_isolated envS3Err "show my s3 and ec2 setup" .storage
    "AccessDenied" (by decide) rfl).1

/-- C6: the account block is first in the context and present whenever
the identity fetch succeeds; if the identity fetch fails, the empty
placeholder is used and the assembly still proceeds over the selected
topics. -/
theorem C6_identity_first (env : Env) (q : String) :
    (∀ e, env.sts = .error e →
        accountSummary env = ""
        ∧ getAwsContext env q =
            joinSep "\n\n"
              (((selectedTopics q).map (summaryFor env)).filter
                (fun s => s ≠ "")))
    ∧ (∀ i, env.sts = .ok i →
        accountSummary env ≠ ""
        ∧ (accountSummary env).data <+: (getAwsContext env q).data) := by
  constructor
  · intro e he
    have hacc : accountSummary env = "" := by rw [accountSummary, he]
    refine ⟨hacc, ?_⟩
    rw [getAwsContext_eq, hacc]
    simp
  · intro i hi
    exact ⟨accountSummary_ok env i hi, account_prefix_context env q i hi⟩

theorem C6_witness :
    (accountSummary envStsErr = ""
     ∧ getAwsContext envStsErr "my ec2 fleet" =
         joinSep "\n\n"
           (((selectedTopics "my ec2 fleet").map (summaryFor envStsErr)).filter
             (fun s => s ≠ "")))
    ∧ (accountSummary envOkAll ≠ ""
       ∧ (accountSummary envOkAll).data <+:
           (getAwsContext envOkAll "my ec2 fleet").data) :=
  ⟨(C6_identity_first envStsErr "my ec2 fleet").1 "ExpiredToken" rfl,
   (C6_identity_first envOkAll "my ec2 fleet").2 identW rfl⟩

/-- C8: with every source client raising, the assembly still produces the
fully determined string made of the account block and the per-domain
failure notes of the selected topics; with no topic selected it is
exactly the account block. -/
theorem C8_all_fail_still_assembles (env : Env) (q : String)
    (hall : ∀ t, (clientErr env t).isSome = true) :
    getAwsContext env q =
      joinSep "\n\n"
        ((accountSummary env ::
            (selectedTopics q).map (fun t => failNote t ((clientErr env t).getD ""))).filter
          (fun s => s ≠ ""))
    ∧ (selectedTopics q = [] → getAwsContext env q = accountSummary env) := by
  have hfn : ∀ t : Topic,
      summaryFor env t = failNote t ((clientErr env t).getD "") := by
    intro t
    cases hct : clientErr env t with
    | some e =>
      rw [summaryFor_err env t e hct, Option.getD_some]
    | none => have := hall t; rw [hct] at this; cases this
  constructor
  · have hmap : (selectedTopics q).map (summaryFor env) =
        (selectedTopics q).map (fun t => failNote t ((clientErr env t).getD "")) :=
      List.map_congr_left (fun t _ => hfn t)
    rw [getAwsContext_eq, hmap]
  · intro hsel
    rw [getAwsContext_eq, hsel]
    by_cases hacc : accountSummary env = ""
    · rw [hacc]; rfl
    · simp only [List.map_nil, List.filter_cons, List.filter_nil]
      rw [if_pos (by simpa using hacc)]
      rfl

theorem C8_witness :
    (∀ t, (clientErr envAllErr t).isSome = true)
    ∧ getAwsContext envAllErr "good morning" = accountSummary envAllErr := by
  have hall : ∀ t, (clientErr envAllErr t).isSome = true := by
    intro t; cases t <;> rfl
  exact ⟨hall,
    (C8_all_fail_still_assembles envAllErr "good morning" hall).2 (by decide)⟩

/-- C2 counterexample: with the cost client returning amount 123.45
(12345 cents), the context assembled for the exact query
"how much am I spending" contains no "$123.45": none of the cost trigger
keywords occurs in that query, so the cost summary is never fetched. -/
theorem C2_counterexample :
    formatCents 12345 = "123.45"
    ∧ envOkAll.costResults = .ok [12345]
    ∧ strContains (getAwsContext envOkAll "how much am I spending")
        "$123.45" = false :=
  ⟨rfl, rfl, by decide⟩

/-- C2 amended: for a query containing a cost trigger keyword, a cost
client amount of 123.45 makes the context contain "$123.45". -/
theorem C2_amended_cost_line (env : Env) (q : String) (rest : List Nat)
    (hk : matchAny (strToLower q) costKeywords = true)
    (hc : env.costResults = .ok (12345 :: rest)) :
    strContains (getAwsContext env q) "$123.45" = true := by
  have hcost : costSummary env =
      "Cost Summary:\n- Current month estimated: $" ++ formatCents 12345 ++
        " USD" := by
    rw [costSummary, hc]
  have hsel : Topic.cost ∈ selectedTopics q := by
    rw [selectedTopics]
    exact List.mem_filter.2 ⟨by decide, hk⟩
  have h1 := summary_infix_context env q .cost hsel
  rw [summaryFor] at h1
  apply (strContains_iff _ _).2
  refine List.IsInfix.trans ?_ h1
  rw [hcost]
  exact (hasInfixCh_iff _ _).1 (by decide)

theorem C2_amended_witness :
    matchAny (strToLower "what is the cost") costKeywords = true
    ∧ strContains (getAwsContext envOkAll "what is the cost") "$123.45" = true :=
  ⟨by decide, C2_amended_cost_line envOkAll "what is the cost" [] (by decide) rfl⟩

/-- Six database instances, more than the five-item cap. -/
def sixDbs : List DbInstance :=
  [⟨"db1", "mysql", "db.t3.micro", "available"⟩,
   ⟨"db2", "mysql", "db.t3.micro", "available"⟩,
   ⟨"db3", "postgres", "db.t3.small", "available"⟩,
   ⟨"db4", "postgres", "db.t3.small", "stopped"⟩,
   ⟨"db5", "mysql", "db.m5.large", "available"⟩,
   ⟨"db6", "mysql", "db.m5.large", "available"⟩]

/-- Six VPCs, more than the five-item cap. -/
def sixVpcs : List Vpc :=
  [⟨"vpc-1", "10.0.0.0/16", true⟩, ⟨"vpc-2", "10.1.0.0/16", false⟩,
   ⟨"vpc-3", "10.2.0.0/16", false⟩, ⟨"vpc-4", "10.3.0.0/16", false⟩,
   ⟨"vpc-5", "10.4.0.0/16", false⟩, ⟨"vpc-6", "10.5.0.0/16", false⟩]

/-- Healthy environment whose RDS and VPC clients return six entities
each. -/
def envSixListed : Env :=
  { envOkAll with dbInstances := .ok sixDbs, vpcs := .ok sixVpcs }

set_option maxRecDepth 40000 in
/-- C1: the five-item rendering cap holds for the compute, storage and
serverless summaries but not for the database and network ones: with six
DB instances and six VPCs, `_get_rds_summary` and `_get_vpc_summary`
render six item lines each, and the sixth item reaches the assembled
context. -/
theorem C1_rds_vpc_uncapped :
    envSixListed.dbInstances = .ok sixDbs
    ∧ sixDbs.length = 6
    ∧ itemLineCount (rdsSummary envSixListed) = 6
    ∧ envSixListed.vpcs = .ok sixVpcs
    ∧ sixVpcs.length = 6
    ∧ itemLineCount (vpcSummary envSixListed) = 6
    ∧ strContains (getAwsContext envSixListed "database and network audit")
        "- db6:" = true
    ∧ strContains (getAwsContext envSixListed "database and network audit")
        "- vpc-6:" = true :=
  ⟨rfl, rfl, by decide, rfl, rfl, by decide, by decide, by decide⟩

/-- Two reservations: seven non-terminated instances and one terminated
one. -/
def rs9 : List (List Ec2Instance) :=
  [[⟨"i-a1", "t2.micro", "running", "us-west-2a"⟩,
    ⟨"i-a2", "t2.micro", "running", "us-west-2a"⟩,
    ⟨"i-a3", "t3.small", "stopped", "us-west-2b"⟩,
    ⟨"i-term", "t2.nano", "terminated", "us-west-2a"⟩],
   [⟨"i-b1", "m5.large", "running", "us-west-2c"⟩,
    ⟨"i-b2", "m5.large", "running", "us-west-2c"⟩,
    ⟨"i-b3", "t3.small", "pending", "us-west-2b"⟩,
    ⟨"i-b4", "t3.small", "stopping", "us-west-2b"⟩]]

/-- Healthy environment whose EC2 client returns `rs9`. -/
def envEc2Many : Env := { envOkAll with ec2Reservations := .ok rs9 }

set_option maxRecDepth 40000 in
/-- C9: the EC2 summary never counts or renders terminated instances, it
renders at most five item lines, and the header count is the number of
all non-terminated instances, which can exceed the five rendered: with
seven active and one terminated instance the header says 7, five lines
appear, and the terminated id is absent. -/
theorem C9_ec2_terminated_excluded :
    (∀ rs : List (List Ec2Instance),
        ((activeInstances rs).all (fun i => i.state != "terminated")) = true
        ∧ (ec2RenderedLines rs).length ≤ 5)
    ∧ envEc2Many.ec2Reservations = .ok rs9
    ∧ (activeInstances rs9).length = 7
    ∧ (ec2RenderedLines rs9).length = 5
    ∧ ec2Summary envEc2Many =
        "EC2 Instances (7 active):\n" ++ String.join (ec2RenderedLines rs9)
    ∧ strContains (ec2Summary envEc2Many) "i-term" = false := by
  refine ⟨?_, rfl, by decide, by decide, by decide, by decide⟩
  intro rs
  constructor
  · rw [List.all_eq_true]
    intro i hi
    have h2 := List.of_mem_filter hi
    simpa using h2
  · rw [ec2RenderedLines, List.length_map, List.length_take]
    exact min_le_left _ _

end AwsAgent
